import Mathlib

/-!
Verification of the Community Calendar backend (src/main.py).

The development shallowly embeds the core of the program:
* the recurrence expansion engine `generate_recurring_events`,
* the per-child insert of `create_event` (the occurrence materializer),
* the cascade of `delete_event`,
* the ICS serializer `export_calendar`,
* the RSVP aggregator `get_rsvp_counts`.

Calendar dates are triples (year, month, day) ordered lexicographically,
exactly like Python `datetime.date` comparison.  Day stepping
(`timedelta(days=n)`) is embedded as `n`-fold application of the
next-calendar-day successor; month and year stepping mirror
`dateutil.relativedelta` (carry months into years, clamp the day of month
to the length of the target month).
-/

namespace CommunityCalendar

/-- A calendar date, as Python's `datetime.date`: year, month (1..12),
day (1..length of month).  The type itself does not enforce validity;
the program only ever builds valid dates from valid ones. -/
structure Date where
  year : Nat
  month : Nat
  day : Nat
deriving Repr, DecidableEq

/-- Lexicographic strict order on dates, the order `datetime.date`
comparison implements. -/
def Date.lt (a b : Date) : Prop :=
  a.year < b.year ∨
    (a.year = b.year ∧ (a.month < b.month ∨ (a.month = b.month ∧ a.day < b.day)))

/-- Non-strict date order. -/
def Date.le (a b : Date) : Prop :=
  Date.lt a b ∨ a = b

instance : LT Date := ⟨Date.lt⟩

instance : LE Date := ⟨Date.le⟩

instance Date.decLt (a b : Date) : Decidable (Date.lt a b) := by
  unfold Date.lt
  exact inferInstance

instance Date.decLe (a b : Date) : Decidable (Date.le a b) := by
  unfold Date.le
  exact inferInstance

instance (a b : Date) : Decidable (a < b) :=
  inferInstanceAs (Decidable (Date.lt a b))

instance (a b : Date) : Decidable (a ≤ b) :=
  inferInstanceAs (Decidable (Date.le a b))

theorem Date.lt_irrefl (a : Date) : ¬ Date.lt a a := by
  unfold Date.lt
  omega

theorem Date.lt_trans {a b c : Date} (h1 : Date.lt a b) (h2 : Date.lt b c) :
    Date.lt a c := by
  unfold Date.lt at *
  omega

theorem Date.le_refl (a : Date) : Date.le a a := Or.inr rfl

theorem Date.le_of_lt {a b : Date} (h : Date.lt a b) : Date.le a b := Or.inl h

theorem Date.lt_of_lt_of_le {a b c : Date} (h1 : Date.lt a b) (h2 : Date.le b c) :
    Date.lt a c := by
  rcases h2 with h2 | rfl
  · exact Date.lt_trans h1 h2
  · exact h1

theorem Date.lt_of_le_of_lt {a b c : Date} (h1 : Date.le a b) (h2 : Date.lt b c) :
    Date.lt a c := by
  rcases h1 with h1 | rfl
  · exact Date.lt_trans h1 h2
  · exact h2

theorem Date.le_trans {a b c : Date} (h1 : Date.le a b) (h2 : Date.le b c) :
    Date.le a c := by
  rcases h1 with h1 | rfl
  · exact Date.le_of_lt (Date.lt_of_lt_of_le h1 h2)
  · exact h2

/-- Gregorian leap-year test. -/
def isLeapYear (y : Nat) : Bool :=
  y % 4 == 0 && (y % 100 != 0 || y % 400 == 0)

/-- Number of days in a month of the Gregorian calendar. -/
def daysInMonth (y m : Nat) : Nat :=
  if m = 2 then (if isLeapYear y then 29 else 28)
  else if m = 4 ∨ m = 6 ∨ m = 9 ∨ m = 11 then 30
  else 31

/-- The next calendar day (the successor in `datetime.date` order). -/
def nextDay (d : Date) : Date :=
  if d.day < daysInMonth d.year d.month then ⟨d.year, d.month, d.day + 1⟩
  else if d.month < 12 then ⟨d.year, d.month + 1, 1⟩
  else ⟨d.year + 1, 1, 1⟩

/-- Embedding of `d + timedelta(days=n)`: the `n`-fold next-day successor. -/
def addDays (d : Date) : Nat → Date
  | 0 => d
  | n + 1 => nextDay (addDays d n)

/-- Embedding of `d + relativedelta(months=n)`: add `n` to the month, carry into the
year, and clamp the day of month to the length of the target month. -/
def addMonths (d : Date) (n : Nat) : Date :=
  let t := d.month - 1 + n
  let y := d.year + t / 12
  let m := t % 12 + 1
  ⟨y, m, min d.day (daysInMonth y m)⟩

/-- Embedding of `d + relativedelta(years=n)`: add `n` years, clamping Feb 29 to
Feb 28 in a non-leap target year. -/
def addYears (d : Date) (n : Nat) : Date :=
  ⟨d.year + n, d.month, min d.day (daysInMonth (d.year + n) d.month)⟩

theorem lt_nextDay (d : Date) : Date.lt d (nextDay d) := by
  unfold nextDay Date.lt
  split
  · exact Or.inr ⟨rfl, Or.inr ⟨rfl, Nat.lt_succ_self _⟩⟩
  · split
    · exact Or.inr ⟨rfl, Or.inl (Nat.lt_succ_self _)⟩
    · exact Or.inl (Nat.lt_succ_self _)

theorem lt_addDays (d : Date) (n : Nat) (h : 1 ≤ n) : Date.lt d (addDays d n) := by
  induction n with
  | zero => exact absurd h (by omega)
  | succ k ih =>
    cases Nat.eq_zero_or_pos k with
    | inl h0 =>
      subst h0
      simpa [addDays] using lt_nextDay d
    | inr hk =>
      exact Date.lt_trans (ih hk) (lt_nextDay _)

theorem lt_addMonths (d : Date) (n : Nat) (h : 1 ≤ n) : Date.lt d (addMonths d n) := by
  simp only [addMonths, Date.lt]
  omega

theorem lt_addYears (d : Date) (n : Nat) (h : 1 ≤ n) : Date.lt d (addYears d n) := by
  simp only [addYears, Date.lt]
  omega

/-- The `RecurrenceType` enum of src/main.py. -/
inductive RecurrenceType where
  | daily
  | weekly
  | monthly
  | yearly
deriving Repr, DecidableEq

/-- The `LocationType` enum of src/main.py. -/
inductive LocationType where
  | in_person
  | online
  | hybrid
deriving Repr, DecidableEq

/-- A validated `HH:MM` event time (the pattern `^([01]?[0-9]|2[0-3]):[0-5][0-9]$`
guarantees the stored string parses to an hour and a minute). -/
structure Time where
  hour : Nat
  minute : Nat
deriving Repr, DecidableEq

/-- The `base_event_dict` passed to `generate_recurring_events` in
`create_event` (src/main.py lines 338-354), plus the `parent_event_id`
key that the engine adds to each copy (absent, i.e. `none`, on the base). -/
structure EventDict where
  id : Nat
  title : String
  description : Option String
  event_date : Date
  event_time : Option Time
  organizer : Option String
  is_recurring : Bool
  recurrence_type : Option RecurrenceType
  recurrence_interval : Option Nat
  recurrence_end_date : Option Date
  location_type : LocationType
  location_name : Option String
  location_address : Option String
  online_meeting_url : Option String
  max_attendees : Option Nat
  parent_event_id : Option Nat
deriving Repr, DecidableEq

/-- One unit of `rule.frequency` scaled by `rule.interval`: the
`current_date += ...` step of the generation loop (src/main.py 262-269). -/
def stepDate (recurrence_type : RecurrenceType) (interval : Nat) (d : Date) : Date :=
  match recurrence_type with
  | .daily => addDays d interval
  | .weekly => addDays d (7 * interval)
  | .monthly => addMonths d interval
  | .yearly => addYears d interval

theorem lt_stepDate (f : RecurrenceType) (interval : Nat) (h : 1 ≤ interval)
    (d : Date) : Date.lt d (stepDate f interval d) := by
  cases f with
  | daily => exact lt_addDays d interval h
  | weekly => exact lt_addDays d (7 * interval) (by omega)
  | monthly => exact lt_addMonths d interval h
  | yearly => exact lt_addYears d interval h

/-- The `while current_date <= max_date and iteration_count < 1000` loop of
`generate_recurring_events` (src/main.py 253-271): `fuel` is the number of
remaining permitted iterations (initially 1000); each iteration appends a
copy of the base event (with the running date and the parent link) when the
running date is strictly past the base date, then advances the running date. -/
def genLoop (base_event : EventDict) (step : Date → Date) (max_date : Date) :
    Nat → Date → List EventDict
  | 0, _ => []
  | fuel + 1, current_date =>
    if current_date ≤ max_date then
      (if base_event.event_date < current_date then
        [{ base_event with
            event_date := current_date
            parent_event_id := some base_event.id }]
      else []) ++ genLoop base_event step max_date fuel (step current_date)
    else []

/-- The function `generate_recurring_events` (src/main.py 239-273). -/
def generate_recurring_events (base_event : EventDict) : List EventDict :=
  match base_event.is_recurring, base_event.recurrence_type with
  | false, _ => []
  | true, none => []
  | true, some recurrence_type =>
    let interval := base_event.recurrence_interval.getD 1
    let max_date := base_event.recurrence_end_date.getD
      (addYears base_event.event_date 2)
    genLoop base_event (stepDate recurrence_type interval) max_date
      1000 base_event.event_date

/-- The dates of the generated occurrences, in output order. -/
def occurrenceDates (base_event : EventDict) : List Date :=
  (generate_recurring_events base_event).map (fun ev => ev.event_date)

/-- Loop invariant of the generation loop: every generated copy carries a
date strictly past the base date, at most `max_date`, and at least the
running date the call started from. -/
theorem genLoop_invariant (base_event : EventDict) (step : Date → Date)
    (max_date : Date) (hstep : ∀ x, Date.lt x (step x)) :
    ∀ (fuel : Nat) (cur : Date) (ev : EventDict),
      ev ∈ genLoop base_event step max_date fuel cur →
      Date.lt base_event.event_date ev.event_date ∧
        Date.le ev.event_date max_date ∧ Date.le cur ev.event_date := by
  intro fuel
  induction fuel with
  | zero =>
    intro cur ev h
    simp [genLoop] at h
  | succ k ih =>
    intro cur ev h
    simp only [genLoop] at h
    split at h
    · rcases List.mem_append.mp h with hl | hr
      · split at hl
        · simp only [List.mem_singleton] at hl
          subst hl
          exact ⟨by assumption, by assumption, Date.le_refl _⟩
        · simp at hl
      · have hrest := ih (step cur) ev hr
        exact ⟨hrest.1, hrest.2.1,
          Date.le_trans (Date.le_of_lt (hstep cur)) hrest.2.2⟩
    · simp at h

/-- The generation loop emits copies in strictly increasing date order. -/
theorem genLoop_chain (base_event : EventDict) (step : Date → Date)
    (max_date : Date) (hstep : ∀ x, Date.lt x (step x)) :
    ∀ (fuel : Nat) (cur : Date),
      List.Chain' (fun a b => Date.lt a.event_date b.event_date)
        (genLoop base_event step max_date fuel cur) := by
  intro fuel
  induction fuel with
  | zero =>
    intro cur
    simp [genLoop]
  | succ k ih =>
    intro cur
    simp only [genLoop]
    split
    · split
      · rw [List.singleton_append]
        apply List.chain'_cons'.mpr
        refine ⟨?_, ih (step cur)⟩
        intro y hy
        have hmem := List.mem_of_mem_head? hy
        have hinv := genLoop_invariant base_event step max_date hstep k
          (step cur) y hmem
        exact Date.lt_of_lt_of_le (hstep cur) hinv.2.2
      · simpa using ih (step cur)
    · simp

/-- The generation loop emits at most one copy per permitted iteration. -/
theorem genLoop_length_le (base_event : EventDict) (step : Date → Date)
    (max_date : Date) :
    ∀ (fuel : Nat) (cur : Date),
      (genLoop base_event step max_date fuel cur).length ≤ fuel := by
  intro fuel
  induction fuel with
  | zero =>
    intro cur
    simp [genLoop]
  | succ k ih =>
    intro cur
    simp only [genLoop]
    split
    · split
      · simpa using Nat.succ_le_succ (ih (step cur))
      · simpa using Nat.le_succ_of_le (ih (step cur))
    · simp

/-- Claim C1: for every rule with `isRecurring = true`, a frequency set and
interval at least 1, every date in the output of `generate_recurring_events`
is strictly greater than the start date and at most `maxDate` (the rule's
end date when present, else the start date plus two calendar years), and the
output dates are strictly increasing. -/
theorem expand_output_bounded_and_increasing (e : EventDict)
    (f : RecurrenceType) (hrec : e.is_recurring = true)
    (hfreq : e.recurrence_type = some f)
    (hint : 1 ≤ e.recurrence_interval.getD 1) :
    (∀ d ∈ occurrenceDates e,
        e.event_date < d ∧
          d ≤ e.recurrence_end_date.getD (addYears e.event_date 2)) ∧
      List.Chain' (fun a b : Date => a < b) (occurrenceDates e) := by
  have hstep : ∀ x, Date.lt x (stepDate f (e.recurrence_interval.getD 1) x) :=
    lt_stepDate f _ hint
  unfold occurrenceDates generate_recurring_events
  simp only [hrec, hfreq]
  constructor
  · intro d hd
    rcases List.mem_map.mp hd with ⟨ev, hev, rfl⟩
    have hinv := genLoop_invariant e _ _ hstep 1000 e.event_date ev hev
    exact ⟨hinv.1, hinv.2.1⟩
  · rw [List.chain'_map]
    exact genLoop_chain e _ _ hstep 1000 e.event_date

/-- Concrete instantiation of claim C1: a daily rule, interval 1, start
2024-01-01, end 2024-01-05. -/
def c1Event : EventDict :=
  { id := 1, title := "standup", description := none,
    event_date := ⟨2024, 1, 1⟩, event_time := none, organizer := none,
    is_recurring := true, recurrence_type := some .daily,
    recurrence_interval := some 1,
    recurrence_end_date := some ⟨2024, 1, 5⟩,
    location_type := .in_person, location_name := none,
    location_address := none, online_meeting_url := none,
    max_attendees := none, parent_event_id := none }

theorem expand_output_bounded_and_increasing_witness :
    c1Event.is_recurring = true ∧
      c1Event.recurrence_type = some .daily ∧
      1 ≤ c1Event.recurrence_interval.getD 1 ∧
      ((∀ d ∈ occurrenceDates c1Event,
          c1Event.event_date < d ∧
            d ≤ c1Event.recurrence_end_date.getD
              (addYears c1Event.event_date 2)) ∧
        List.Chain' (fun a b : Date => a < b) (occurrenceDates c1Event)) :=
  ⟨rfl, rfl, by decide,
    expand_output_bounded_and_increasing c1Event .daily rfl rfl (by decide)⟩

/-- Concrete event of claim C2: a MONTHLY rule with interval 1 starting
2024-01-31 and no end date. -/
def c2Event : EventDict :=
  { id := 2, title := "last-day meetup", description := none,
    event_date := ⟨2024, 1, 31⟩, event_time := none, organizer := none,
    is_recurring := true, recurrence_type := some .monthly,
    recurrence_interval := some 1, recurrence_end_date := none,
    location_type := .in_person, location_name := none,
    location_address := none, online_meeting_url := none,
    max_attendees := none, parent_event_id := none }

/-- Claim C2: expanding a MONTHLY rule with interval 1 starting 2024-01-31
yields 2024-02-29 as the first element of the output (the day of month is
clamped to the last valid day of February of the leap year 2024, not an
error and not 2024-03-02). -/
theorem expand_monthly_clamps_jan31_to_feb29 :
    (occurrenceDates c2Event).head? = some ⟨2024, 2, 29⟩ := by
  decide

/-- Claim C3: for every rule and start date, `generate_recurring_events`
terminates with at most 1000 generated elements, whatever the interval,
frequency and end date: the loop stops once the running date passes
`maxDate` or after 1000 iterations. -/
theorem expand_length_le_1000 (e : EventDict) :
    (generate_recurring_events e).length ≤ 1000 := by
  unfold generate_recurring_events
  rcases e.is_recurring with _ | _ <;> rcases e.recurrence_type with _ | f <;>
    simp only []
  · simp
  · simp
  · simp
  · exact genLoop_length_le e _ _ 1000 e.event_date

/-- Claim C4: whenever `isRecurring` is false or the frequency is unset
(including the degenerate rule `isRecurring = true` with no frequency),
`generate_recurring_events` returns the empty list and no error. -/
theorem expand_nonrecurring_empty (e : EventDict)
    (h : e.is_recurring = false ∨ e.recurrence_type = none) :
    generate_recurring_events e = [] := by
  unfold generate_recurring_events
  rcases h with h | h <;> rw [h]
  rcases e.is_recurring with _ | _ <;> rfl

/-- Degenerate rule of claim C4: `isRecurring = true` but no frequency. -/
def c4Event : EventDict :=
  { id := 4, title := "degenerate", description := none,
    event_date := ⟨2024, 6, 1⟩, event_time := none, organizer := none,
    is_recurring := true, recurrence_type := none,
    recurrence_interval := some 1, recurrence_end_date := none,
    location_type := .in_person, location_name := none,
    location_address := none, online_meeting_url := none,
    max_attendees := none, parent_event_id := none }

theorem expand_nonrecurring_empty_witness :
    (c4Event.is_recurring = false ∨ c4Event.recurrence_type = none) ∧
      generate_recurring_events c4Event = [] :=
  ⟨Or.inr rfl, expand_nonrecurring_empty c4Event (Or.inr rfl)⟩

/-- Claim C10: the output of `generate_recurring_events` never reaches 1000
elements: the first of the 1000 permitted iterations processes the start
date itself, which is never emitted, so at most 999 elements remain. -/
theorem expand_length_le_999 (e : EventDict) :
    (generate_recurring_events e).length ≤ 999 := by
  unfold generate_recurring_events
  rcases e.is_recurring with _ | _ <;> rcases e.recurrence_type with _ | f <;>
    simp only []
  · simp
  · simp
  · simp
  · show (genLoop e _ _ 1000 e.event_date).length ≤ 999
    rw [genLoop]
    split
    · have hne : ¬ (e.event_date < e.event_date) := Date.lt_irrefl e.event_date
      rw [if_neg hne, List.nil_append]
      exact genLoop_length_le e _ _ 999 _
    · simp

/-- Every element of the generation loop's output is a copy of the base
event: all fields except the date agree with the base, and the parent link
is set to the base id. -/
theorem genLoop_mem_shape (base_event : EventDict) (step : Date → Date)
    (max_date : Date) :
    ∀ (fuel : Nat) (cur : Date) (ev : EventDict),
      ev ∈ genLoop base_event step max_date fuel cur →
      ev.title = base_event.title ∧
        ev.description = base_event.description ∧
        ev.event_time = base_event.event_time ∧
        ev.organizer = base_event.organizer ∧
        ev.location_type = base_event.location_type ∧
        ev.location_name = base_event.location_name ∧
        ev.location_address = base_event.location_address ∧
        ev.online_meeting_url = base_event.online_meeting_url ∧
        ev.max_attendees = base_event.max_attendees ∧
        ev.parent_event_id = some base_event.id := by
  intro fuel
  induction fuel with
  | zero =>
    intro cur ev h
    simp [genLoop] at h
  | succ k ih =>
    intro cur ev h
    simp only [genLoop] at h
    split at h
    · rcases List.mem_append.mp h with hl | hr
      · split at hl
        · simp only [List.mem_singleton] at hl
          subst hl
          exact ⟨rfl, rfl, rfl, rfl, rfl, rfl, rfl, rfl, rfl, rfl⟩
        · simp at hl
      · exact ih (step cur) ev hr
    · simp at h

/-- The copy shape transferred to `generate_recurring_events`. -/
theorem generate_mem_shape (base_event ev : EventDict)
    (hev : ev ∈ generate_recurring_events base_event) :
    ev.title = base_event.title ∧
      ev.description = base_event.description ∧
      ev.event_time = base_event.event_time ∧
      ev.organizer = base_event.organizer ∧
      ev.location_type = base_event.location_type ∧
      ev.location_name = base_event.location_name ∧
      ev.location_address = base_event.location_address ∧
      ev.online_meeting_url = base_event.online_meeting_url ∧
      ev.max_attendees = base_event.max_attendees ∧
      ev.parent_event_id = some base_event.id := by
  unfold generate_recurring_events at hev
  cases hrec : base_event.is_recurring with
  | false =>
    rw [hrec] at hev
    simp at hev
  | true =>
    rw [hrec] at hev
    cases hrt : base_event.recurrence_type with
    | none =>
      rw [hrt] at hev
      simp at hev
    | some f =>
      rw [hrt] at hev
      exact genLoop_mem_shape base_event _ _ 1000 base_event.event_date ev hev

/-- The column tuple of the per-child `INSERT INTO events` of `create_event`
(src/main.py 358-369): everything the generated copy carries except that the
recurrence columns are hard-coded to `False, None, None, None`.  The store
assigns the row id on insertion, so the record has none. -/
structure InsertedEventRow where
  title : String
  description : Option String
  event_date : Date
  event_time : Option Time
  organizer : Option String
  is_recurring : Bool
  recurrence_type : Option RecurrenceType
  recurrence_interval : Option Nat
  recurrence_end_date : Option Date
  parent_event_id : Option Nat
  location_type : LocationType
  location_name : Option String
  location_address : Option String
  online_meeting_url : Option String
  max_attendees : Option Nat
deriving Repr, DecidableEq

/-- One child insert of `create_event` (src/main.py 359-369). -/
def insertChildRow (rec_event : EventDict) : InsertedEventRow :=
  { title := rec_event.title
    description := rec_event.description
    event_date := rec_event.event_date
    event_time := rec_event.event_time
    organizer := rec_event.organizer
    is_recurring := false
    recurrence_type := none
    recurrence_interval := none
    recurrence_end_date := none
    parent_event_id := rec_event.parent_event_id
    location_type := rec_event.location_type
    location_name := rec_event.location_name
    location_address := rec_event.location_address
    online_meeting_url := rec_event.online_meeting_url
    max_attendees := rec_event.max_attendees }

/-- The child records `create_event` persists for a recurring event
(src/main.py 356-371): one insert per element of the engine's output. -/
def materializedChildren (base_event : EventDict) : List InsertedEventRow :=
  (generate_recurring_events base_event).map insertChildRow

/-- Claim C5: each materialized child copies the parent's title,
description, time, organizer, location fields and attendance cap, carries
an occurrence date produced by the engine (in matching order), links back
to the parent via `parentEventId`, and has all recurrence fields cleared. -/
theorem materialized_children_copy_parent_and_clear_recurrence
    (base_event : EventDict) :
    (materializedChildren base_event).map (fun c => c.event_date) =
        occurrenceDates base_event ∧
      ∀ c ∈ materializedChildren base_event,
        c.title = base_event.title ∧
        c.description = base_event.description ∧
        c.event_time = base_event.event_time ∧
        c.organizer = base_event.organizer ∧
        c.location_type = base_event.location_type ∧
        c.location_name = base_event.location_name ∧
        c.location_address = base_event.location_address ∧
        c.online_meeting_url = base_event.online_meeting_url ∧
        c.max_attendees = base_event.max_attendees ∧
        c.event_date ∈ occurrenceDates base_event ∧
        c.parent_event_id = some base_event.id ∧
        c.is_recurring = false ∧
        c.recurrence_type = none ∧
        c.recurrence_interval = none ∧
        c.recurrence_end_date = none := by
  constructor
  · unfold materializedChildren occurrenceDates
    rw [List.map_map]
    rfl
  · intro c hc
    rcases List.mem_map.mp hc with ⟨ev, hev, rfl⟩
    have hdate : ev.event_date ∈ occurrenceDates base_event :=
      List.mem_map.mpr ⟨ev, hev, rfl⟩
    have hshape := generate_mem_shape base_event ev hev
    exact ⟨hshape.1, hshape.2.1, hshape.2.2.1, hshape.2.2.2.1,
      hshape.2.2.2.2.1, hshape.2.2.2.2.2.1, hshape.2.2.2.2.2.2.1,
      hshape.2.2.2.2.2.2.2.1, hshape.2.2.2.2.2.2.2.2.1, hdate,
      hshape.2.2.2.2.2.2.2.2.2, rfl, rfl, rfl, rfl⟩

/-- The first materialized child of `c1Event`. -/
def c5Child : InsertedEventRow :=
  insertChildRow { c1Event with
    event_date := ⟨2024, 1, 2⟩
    parent_event_id := some c1Event.id }

theorem materialized_children_witness :
    c5Child ∈ materializedChildren c1Event ∧
      c5Child.title = c1Event.title ∧
      c5Child.description = c1Event.description ∧
      c5Child.event_time = c1Event.event_time ∧
      c5Child.organizer = c1Event.organizer ∧
      c5Child.location_type = c1Event.location_type ∧
      c5Child.location_name = c1Event.location_name ∧
      c5Child.location_address = c1Event.location_address ∧
      c5Child.online_meeting_url = c1Event.online_meeting_url ∧
      c5Child.max_attendees = c1Event.max_attendees ∧
      c5Child.event_date ∈ occurrenceDates c1Event ∧
      c5Child.parent_event_id = some c1Event.id ∧
      c5Child.is_recurring = false ∧
      c5Child.recurrence_type = none ∧
      c5Child.recurrence_interval = none ∧
      c5Child.recurrence_end_date = none :=
  ⟨by decide,
    (materialized_children_copy_parent_and_clear_recurrence c1Event).2
      c5Child (by decide)⟩

/-- A stored row of the `events` table. -/
structure EventRow where
  id : Nat
  title : String
  description : Option String
  event_date : Date
  event_time : Option Time
  organizer : Option String
  is_recurring : Bool
  recurrence_type : Option RecurrenceType
  recurrence_interval : Option Nat
  recurrence_end_date : Option Date
  parent_event_id : Option Nat
  location_type : LocationType
  location_name : Option String
  location_address : Option String
  online_meeting_url : Option String
  max_attendees : Option Nat
deriving Repr, DecidableEq

/-- A stored row of the `rsvps` table. -/
structure RSVPRow where
  id : Nat
  event_id : Nat
  attendee_name : String
  attendee_email : Option String
  status : String
  notes : Option String
deriving Repr, DecidableEq

/-- The relational store: the two tables. -/
structure DB where
  events : List EventRow
  rsvps : List RSVPRow
deriving Repr, DecidableEq

/-- The 404-style failures the embedded endpoints surface. -/
inductive ApiError where
  | eventNotFound
  | noEventsToExport
deriving Repr, DecidableEq

/-- The endpoint `delete_event` (src/main.py 628-651): 404 when the id is absent; else
`DELETE FROM rsvps WHERE event_id = ?` followed by
`DELETE FROM events WHERE id = ? OR parent_event_id = ?`.  The connection
never turns the `foreign_keys` pragma on, so SQLite's declared
`ON DELETE CASCADE` does not fire: only the two literal statements run. -/
def delete_event (db : DB) (event_id : Nat) : Except ApiError DB :=
  if db.events.any (fun e => e.id == event_id) then
    Except.ok
      { events := db.events.filter
          (fun e => !(e.id == event_id || e.parent_event_id == some event_id))
        rsvps := db.rsvps.filter (fun r => !(r.event_id == event_id)) }
  else Except.error ApiError.eventNotFound

/-- A parent event row used by the C6 scenario. -/
def c6Parent : EventRow :=
  { id := 1, title := "parent", description := none,
    event_date := ⟨2024, 1, 1⟩, event_time := none, organizer := none,
    is_recurring := true, recurrence_type := some .daily,
    recurrence_interval := some 1,
    recurrence_end_date := some ⟨2024, 1, 2⟩, parent_event_id := none,
    location_type := .in_person, location_name := none,
    location_address := none, online_meeting_url := none,
    max_attendees := none }

/-- The materialized child of `c6Parent`. -/
def c6Child : EventRow :=
  { id := 2, title := "parent", description := none,
    event_date := ⟨2024, 1, 2⟩, event_time := none, organizer := none,
    is_recurring := false, recurrence_type := none,
    recurrence_interval := none, recurrence_end_date := none,
    parent_event_id := some 1, location_type := .in_person,
    location_name := none, location_address := none,
    online_meeting_url := none, max_attendees := none }

/-- An RSVP attached to the child event. -/
def c6ChildRsvp : RSVPRow :=
  { id := 1, event_id := 2, attendee_name := "Ada",
    attendee_email := some "ada@example.com", status := "going",
    notes := none }

/-- The store before deleting the parent: the parent, its child, and one
RSVP on the child. -/
def c6Db : DB :=
  { events := [c6Parent, c6Child], rsvps := [c6ChildRsvp] }

/-- Claim C6 (divergence): deleting parent event 1 removes the parent row
and the child row, but the RSVP statement only matches `event_id = 1`, so
the child's RSVP survives as an orphan — the code does not remove the RSVPs
of the children, contradicting the declared `ON DELETE CASCADE` intent. -/
theorem delete_event_orphans_child_rsvps :
    delete_event c6Db 1 =
      Except.ok { events := [], rsvps := [c6ChildRsvp] } := by
  rfl

/-- Zero-padded two-digit rendering (strftime field). -/
def pad2 (n : Nat) : String :=
  if n < 10 then "0" ++ toString n else toString n

/-- Zero-padded four-digit year rendering (strftime `%Y`). -/
def pad4 (n : Nat) : String :=
  if n < 10 then "000" ++ toString n
  else if n < 100 then "00" ++ toString n
  else if n < 1000 then "0" ++ toString n
  else toString n

/-- A naive `datetime` value: date plus time of day. -/
structure DateTime where
  date : Date
  hour : Nat
  minute : Nat
  second : Nat
deriving Repr, DecidableEq

/-- Embedding of `strftime("%Y%m%dT%H%M%SZ")`, the UTC stamp format of the export. -/
def fmtStamp (t : DateTime) : String :=
  pad4 t.date.year ++ pad2 t.date.month ++ pad2 t.date.day ++ "T" ++
    pad2 t.hour ++ pad2 t.minute ++ pad2 t.second ++ "Z"

/-- Embedding of `datetime.fromisoformat` of a stored DATE column: that date at
midnight. -/
def atMidnight (d : Date) : DateTime := ⟨d, 0, 0, 0⟩

/-- Embedding of `event_start + timedelta(hours=1)`: the fixed one-hour duration. -/
def addOneHour (t : DateTime) : DateTime :=
  if t.hour + 1 ≤ 23 then { t with hour := t.hour + 1 }
  else { date := nextDay t.date, hour := 0, minute := t.minute,
         second := t.second }

/-- Python truthiness of an optional TEXT column: `None` and the empty
string are falsy. -/
def strTruthy : Option String → Bool
  | none => false
  | some s => !(s == "")

/-- The value string of the `RecurrenceType` str-enum member. -/
def RecurrenceType.value : RecurrenceType → String
  | .daily => "daily"
  | .weekly => "weekly"
  | .monthly => "monthly"
  | .yearly => "yearly"

/-- Embedding of `row["recurrence_type"].upper()`: the uppercase rendering of each of
the four possible stored frequency values. -/
def RecurrenceType.upper : RecurrenceType → String
  | .daily => "DAILY"
  | .weekly => "WEEKLY"
  | .monthly => "MONTHLY"
  | .yearly => "YEARLY"

/-- The LOCATION parts of one exported event (src/main.py 1006-1017). -/
def locationParts (row : EventRow) : List String :=
  if row.location_type == .online && strTruthy row.online_meeting_url then
    ["Online: " ++ row.online_meeting_url.getD ""]
  else if row.location_type == .in_person || row.location_type == .hybrid then
    (if strTruthy row.location_name then [row.location_name.getD ""] else []) ++
      (if strTruthy row.location_address then [row.location_address.getD ""]
       else []) ++
      (if row.location_type == .hybrid && strTruthy row.online_meeting_url then
        ["Online option: " ++ row.online_meeting_url.getD ""]
       else [])
  else []

/-- The RRULE value of one exported event (src/main.py 1024-1030), built
when the row still carries `is_recurring` and a frequency `rt`. -/
def rruleValue (row : EventRow) (rt : RecurrenceType) : String :=
  let freq := rt.upper
  let interval := row.recurrence_interval.getD 1
  let rrule := "FREQ=" ++ freq ++ ";INTERVAL=" ++ toString interval
  match row.recurrence_end_date with
  | some d => rrule ++ ";UNTIL=" ++ fmtStamp (atMidnight d)
  | none => rrule

/-- One VEVENT block of the export (src/main.py 979-1034), with the
ambient `datetime.utcnow()` threaded in as `now`. -/
def eventBlock (now : DateTime) (row : EventRow) : String :=
  let event_start : DateTime :=
    match row.event_time with
    | some t => ⟨row.event_date, t.hour, t.minute, 0⟩
    | none => ⟨row.event_date, 0, 0, 0⟩
  let event_end := addOneHour event_start
  "BEGIN:VEVENT\n" ++
    ("UID:" ++ toString row.id ++ "@communitycalendar\n") ++
    ("DTSTAMP:" ++ fmtStamp now ++ "\n") ++
    ("DTSTART:" ++ fmtStamp event_start ++ "\n") ++
    ("DTEND:" ++ fmtStamp event_end ++ "\n") ++
    ("SUMMARY:" ++ row.title ++ "\n") ++
    (if strTruthy row.description then
      "DESCRIPTION:" ++ row.description.getD "" ++ "\n"
     else "") ++
    (if strTruthy row.organizer then
      "ORGANIZER:" ++ row.organizer.getD "" ++ "\n"
     else "") ++
    (if (locationParts row).isEmpty then ""
     else "LOCATION:" ++ String.intercalate ", " (locationParts row) ++ "\n") ++
    (if row.is_recurring = true then
      match row.recurrence_type with
      | some rt => "RRULE:" ++ rruleValue row rt ++ "\n"
      | none => ""
     else "") ++
    "END:VEVENT\n"

/-- The endpoint `export_calendar` (src/main.py 965-1047): serialize the stored rows
(already ordered by date then time by the SELECT); 404-style failure when
there are none. -/
def export_calendar (now : DateTime) (rows : List EventRow) :
    Except ApiError String :=
  if rows.isEmpty = true then Except.error ApiError.noEventsToExport
  else
    Except.ok
      ("BEGIN:VCALENDAR\nVERSION:2.0\nPRODID:-//Community Calendar//EN\n" ++
        String.join (rows.map (eventBlock now)) ++ "END:VCALENDAR")

/-- Claim C7: exporting the empty event sequence fails with the
no-content error rather than producing an empty-but-valid document, and
every non-empty input yields a text document without that error. -/
theorem export_calendar_empty_fails_nonempty_ok :
    (∀ now : DateTime,
        export_calendar now [] = Except.error ApiError.noEventsToExport) ∧
      ∀ (now : DateTime) (rows : List EventRow), rows ≠ [] →
        ∃ s, export_calendar now rows = Except.ok s := by
  constructor
  · intro now
    rfl
  · intro now rows h
    cases rows with
    | nil => exact absurd rfl h
    | cons r tl => exact ⟨_, rfl⟩

/-- A fixed generation instant for the export examples. -/
def c8Now : DateTime := ⟨⟨2024, 5, 1⟩, 12, 0, 0⟩

/-- The C8 example row: `frequency=WEEKLY, interval=2,
endDate=2024-12-31`. -/
def c8Row : EventRow :=
  { id := 3, title := "yoga", description := none,
    event_date := ⟨2024, 1, 8⟩, event_time := some ⟨18, 0⟩,
    organizer := none, is_recurring := true,
    recurrence_type := some .weekly, recurrence_interval := some 2,
    recurrence_end_date := some ⟨2024, 12, 31⟩, parent_event_id := none,
    location_type := .in_person, location_name := none,
    location_address := none, online_meeting_url := none,
    max_attendees := none }

theorem export_calendar_empty_fails_nonempty_ok_witness :
    ([c8Row] ≠ ([] : List EventRow)) ∧
      ∃ s, export_calendar c8Now [c8Row] = Except.ok s :=
  ⟨by decide,
    export_calendar_empty_fails_nonempty_ok.2 c8Now [c8Row] (by decide)⟩

/-- Claim C8: every event row with `isRecurring = true` and a frequency
gets an RRULE line `FREQ=<uppercased frequency>;INTERVAL=<interval, or 1
when null>`, followed by `;UNTIL=<endDate as a UTC stamp>` exactly when an
end date is present. -/
theorem export_rrule_line (now : DateTime) (row : EventRow)
    (rt : RecurrenceType) (hrec : row.is_recurring = true)
    (hfreq : row.recurrence_type = some rt) :
    ∃ pre post,
      eventBlock now row =
          pre ++ ("RRULE:" ++ rruleValue row rt ++ "\n") ++ post ∧
        rruleValue row rt =
          (match row.recurrence_end_date with
           | some d =>
             "FREQ=" ++ rt.upper ++ ";INTERVAL=" ++
               toString (row.recurrence_interval.getD 1) ++ ";UNTIL=" ++
               fmtStamp (atMidnight d)
           | none =>
             "FREQ=" ++ rt.upper ++ ";INTERVAL=" ++
               toString (row.recurrence_interval.getD 1)) := by
  rcases row with ⟨i, ti, de, ed, et, og, ir, rty, ri, red, pe, lty, ln, la,
    om, ma⟩
  dsimp only at hrec hfreq ⊢
  subst hrec
  subst hfreq
  refine ⟨_, "END:VEVENT\n", rfl, ?_⟩
  cases red <;> rfl

theorem export_rrule_line_witness :
    c8Row.is_recurring = true ∧ c8Row.recurrence_type = some .weekly ∧
      ∃ pre post,
        eventBlock c8Now c8Row =
          pre ++ "RRULE:FREQ=WEEKLY;INTERVAL=2;UNTIL=20241231T000000Z\n" ++
            post := by
  refine ⟨rfl, rfl, ?_⟩
  obtain ⟨pre, post, h1, _⟩ :=
    export_rrule_line c8Now c8Row .weekly rfl rfl
  refine ⟨pre, post, ?_⟩
  rw [h1]
  have hv : "RRULE:" ++ rruleValue c8Row .weekly ++ "\n" =
      "RRULE:FREQ=WEEKLY;INTERVAL=2;UNTIL=20241231T000000Z\n" := by decide
  rw [hv]

/-- The initial counts dict of `get_rsvp_counts` (src/main.py 285). -/
def initCounts : List (String × Nat) :=
  [("going", 0), ("maybe", 0), ("not_going", 0)]

/-- Python dict assignment `counts[k] = v`: overwrite the key when
present, append a new key otherwise. -/
def setKey (m : List (String × Nat)) (k : String) (v : Nat) :
    List (String × Nat) :=
  if m.any (fun p => p.1 == k) then
    m.map (fun p => if p.1 == k then (k, v) else p)
  else m ++ [(k, v)]

/-- The `SELECT status, COUNT(*) ... GROUP BY status` result rows: one
`(status, count)` pair per distinct status value. -/
def groupByStatus (rows : List RSVPRow) : List (String × Nat) :=
  ((rows.map (fun r => r.status)).dedup).map
    (fun s => (s, (rows.filter (fun r => r.status == s)).length))

/-- The function `get_rsvp_counts` (src/main.py 275-289). -/
def get_rsvp_counts (db : DB) (event_id : Nat) : List (String × Nat) :=
  let rows := db.rsvps.filter (fun r => r.event_id == event_id)
  (groupByStatus rows).foldl (fun counts p => setKey counts p.1 p.2)
    initCounts

/-- Store holding a single RSVP whose status is outside the known enum. -/
def c9Db : DB :=
  { events := [],
    rsvps := [{ id := 1, event_id := 7, attendee_name := "Eve",
                attendee_email := none, status := "attending",
                notes := none }] }

/-- Claim C9 (counterexample): an RSVP row with the unknown status
`"attending"` makes `get_rsvp_counts` return a fourth bucket — the dict
assignment `counts[row["status"]] = count` adds unknown keys instead of
dropping them. -/
theorem rsvp_counts_fourth_bucket_counterexample :
    ("attending", 1) ∈ get_rsvp_counts c9Db 7 ∧
      ¬ ("attending" = "going" ∨ "attending" = "maybe" ∨
          "attending" = "not_going") := by
  decide

theorem setKey_keys (m : List (String × Nat)) (k : String) (v : Nat)
    (h : m.any (fun p => p.1 == k) = true) :
    (setKey m k v).map (fun p => p.1) = m.map (fun p => p.1) := by
  unfold setKey
  rw [if_pos h, List.map_map]
  apply List.map_congr_left
  intro q hq
  show (if q.1 == k then (k, v) else q).1 = q.1
  by_cases hqk : q.1 == k
  · rw [if_pos hqk]
    exact (eq_of_beq hqk).symm
  · rw [if_neg hqk]

/-- Folding dict assignments whose keys are already present leaves the
key list unchanged. -/
theorem foldl_setKey_keys :
    ∀ (groups m : List (String × Nat)),
      (∀ p ∈ groups, p.1 ∈ m.map (fun q => q.1)) →
      (groups.foldl (fun counts p => setKey counts p.1 p.2) m).map
          (fun q => q.1) =
        m.map (fun q => q.1) := by
  intro groups
  induction groups with
  | nil =>
    intro m _
    rfl
  | cons p tl ih =>
    intro m h
    rw [List.foldl_cons]
    have hp : p.1 ∈ m.map (fun q => q.1) := h p (List.mem_cons_self p tl)
    have hany : m.any (fun q => q.1 == p.1) = true := by
      rcases List.mem_map.mp hp with ⟨q, hq, hq1⟩
      exact List.any_eq_true.mpr ⟨q, hq, by simp [hq1]⟩
    have hkeys := setKey_keys m p.1 p.2 hany
    have htl : ∀ r ∈ tl, r.1 ∈ (setKey m p.1 p.2).map (fun q => q.1) := by
      intro r hr
      rw [hkeys]
      exact h r (List.mem_cons_of_mem p hr)
    rw [ih (setKey m p.1 p.2) htl, hkeys]

/-- Claim C9 (amended): when every RSVP row of the event carries one of
the three known statuses, the returned counts have exactly the buckets
going, maybe and not_going; an unknown status would instead add its own
bucket. -/
theorem rsvp_counts_known_statuses_three_buckets (db : DB) (event_id : Nat)
    (h : ∀ r ∈ db.rsvps, r.event_id = event_id →
      r.status = "going" ∨ r.status = "maybe" ∨ r.status = "not_going") :
    (get_rsvp_counts db event_id).map (fun p => p.1) =
      ["going", "maybe", "not_going"] := by
  unfold get_rsvp_counts
  rw [foldl_setKey_keys]
  · rfl
  · intro p hp
    rcases List.mem_map.mp hp with ⟨s, hs, rfl⟩
    have hs' : s ∈ (db.rsvps.filter
        (fun r => r.event_id == event_id)).map (fun r => r.status) :=
      List.mem_dedup.mp hs
    rcases List.mem_map.mp hs' with ⟨r, hr, rfl⟩
    have hr' := List.mem_filter.mp hr
    have hid : r.event_id = event_id := by
      have := hr'.2
      simpa using this
    rcases h r hr'.1 hid with h3 | h3 | h3 <;> rw [h3] <;> simp [initCounts]

/-- Store with statuses going, going, maybe on event 7. -/
def c9KnownDb : DB :=
  { events := [],
    rsvps :=
      [{ id := 1, event_id := 7, attendee_name := "A",
         attendee_email := none, status := "going", notes := none },
       { id := 2, event_id := 7, attendee_name := "B",
         attendee_email := none, status := "going", notes := none },
       { id := 3, event_id := 7, attendee_name := "C",
         attendee_email := none, status := "maybe", notes := none }] }

theorem rsvp_counts_known_statuses_three_buckets_witness :
    (∀ r ∈ c9KnownDb.rsvps, r.event_id = 7 →
        r.status = "going" ∨ r.status = "maybe" ∨ r.status = "not_going") ∧
      (get_rsvp_counts c9KnownDb 7).map (fun p => p.1) =
        ["going", "maybe", "not_going"] :=
  ⟨by decide, rsvp_counts_known_statuses_three_buckets c9KnownDb 7 (by decide)⟩

end CommunityCalendar
